import Mathlib

/-!
Verification of the ordered-fallback completion dispatcher of
`src/openrouter_client.py` (class `OpenRouterClient`).

Shallow embedding: network I/O is abstracted into an environment `Env`
that maps each model name to the outcome of the HTTP call the code would
make for it (a response with a status code and parsed fields, a timeout,
or a raised exception), plus the outcome of the direct Gemini fallback
call.  The in-memory usage tracker `self.model_stats` is threaded
explicitly as a function from model name to its stats record.  The
database logging path (`_log_to_db`, the SQL branch of
`get_model_status`) is external I/O and is not modelled; the in-memory
branch (no `LOG_DATABASE_URL`) is.
-/

/-- Outcome of one `requests.post` call made by `_call_api` /
`analyze_video_url`, as the dispatch loop observes it:
`resp status content total prompt completion errMsg` stands for a
returned response with that HTTP status, whose parsed success fields are
`content`/`total`/`prompt`/`completion` (the `data.get(...)` chain of the
200 branch) and whose extracted error message is `errMsg` (the
`error_data.get("error",{}).get("message", response.text)` of the other
branches); `timeout` is `requests.exceptions.Timeout`; `exn msg` is any
other exception raised inside the per-model `try` block. -/
inductive HttpOutcome where
  | resp (status : Nat) (content : String) (total prompt completion : Nat) (errMsg : String)
  | timeout
  | exn (msg : String)
deriving Repr, DecidableEq

/-- Outcome of the direct Gemini call `model.generate_content(prompt)` in
the secondary fallback block: `ok text` is a response whose `.text` is
`text` (the code treats an empty `text` as falsy and falls through),
`noText` is a falsy response object, `exn msg` is a raised exception. -/
inductive GeminiOutcome where
  | ok (text : String)
  | noText
  | exn (msg : String)
deriving Repr, DecidableEq

/-- The ambient environment of one run: whether `OPENROUTER_API_KEY` and
`GEMINI_API_KEY` are set, the outcome of the OpenRouter call for each
model (`call`, used by `chat_completion`; `vcall`, used by
`analyze_video_url` whose payload differs), and the outcome of the direct
Gemini fallback call. -/
structure Env where
  api_key : Bool
  gemini_key : Bool
  call : String → HttpOutcome
  vcall : String → HttpOutcome
  gemini : GeminiOutcome

/-- One entry of `self.model_stats` (the in-memory usage tracker); the
`last_used` timestamp is wall-clock time and is not modelled. -/
structure ModelStats where
  status : String
  success_count : Nat
  error_count : Nat
  last_error : Option String
deriving Repr, DecidableEq

/-- The fresh stats record `{"status": "unused", "success_count": 0, ...}`
used both at `__init__` and when `_update_model_status` meets a new key. -/
def initStats : ModelStats :=
  { status := "unused", success_count := 0, error_count := 0, last_error := none }

/-- The tracker `self.model_stats`, as a total map: every key not yet
written holds `initStats`, mirroring the on-demand initialisation in
`_update_model_status`. -/
def Tracker : Type := String → ModelStats

/-- The tracker right after `OpenRouterClient.__init__`: every model's
entry is the fresh `unused` record. -/
def initTracker : Tracker := fun _ => initStats

/-- `OpenRouterClient._update_model_status` (memory part): bump the
model's counters, set `status` to the outcome just observed, and set or
clear `last_error`. The DB insert `_log_to_db` is I/O and out of scope. -/
def update_model_status (tr : Tracker) (model : String) (success : Bool)
    (error_msg : Option String) : Tracker :=
  fun m =>
    if m = model then
      let s := tr m
      if success then
        { s with status := "success", success_count := s.success_count + 1,
                 last_error := none }
      else
        { s with status := "error", error_count := s.error_count + 1,
                 last_error := error_msg }
    else tr m

/-- `OpenRouterClient.get_model_status` on the in-memory branch (no
`LOG_DATABASE_URL` configured): returns `self.model_stats` as is. -/
def get_model_status (tr : Tracker) : Tracker := tr

/-- Model lists from the top of the file. `TEXT_MODELS` is the
user-specified priority list. -/
def TEXT_MODELS : List String :=
  ["google/gemma-3-27b-it:free",
   "google/gemma-3-12b-it:free",
   "openai/gpt-oss-120b:free",
   "openai/gpt-oss-20b:free",
   "meta-llama/llama-3.3-70b-instruct:free"]

/-- `VIDEO_CAPABLE_MODELS = []` — video analysis moved to the direct
Gemini API, so the OpenRouter video list is empty. -/
def VIDEO_CAPABLE_MODELS : List String := []

/-- The key under which the direct Gemini fallback is tracked. -/
def geminiDirect : String := "gemini-1.5-flash (direct)"

/-- The result dict of `chat_completion` and friends. Python returns
dicts whose key sets differ by branch; a key absent from the dict is an
`Option` field holding `none` (so `result.get(k, d)` is `.getD d`). -/
structure CompletionResult where
  success : Bool
  content : Option String
  model_used : Option String
  tokens_used : Nat
  prompt_tokens : Option Nat
  completion_tokens : Option Nat
  error : Option String
  needs_translation : Option Bool
  translated : Option Bool
  translation_model : Option String
deriving Repr, DecidableEq

/-- The success dict built in `chat_completion`'s HTTP-200 branch. -/
def mkSuccess (model content : String) (total prompt completion : Nat) : CompletionResult :=
  { success := true, content := some content, model_used := some model,
    tokens_used := total, prompt_tokens := some prompt,
    completion_tokens := some completion, error := none,
    needs_translation := none, translated := none, translation_model := none }

/-- Python's `x or default` on the `last_error` variable: `None` and the
empty string both yield the default. -/
def pyOr (le : Option String) (d : String) : String :=
  match le with
  | some s => if s = "" then d else s
  | none => d

/-- Python's `f"{last_error}"` when `last_error` may be `None`. -/
def pyStr (le : Option String) : String :=
  match le with
  | some s => s
  | none => "None"

/-- The failure dict returned at the bottom of `chat_completion`:
`{"success": False, "content": None, "model_used": None,
  "error": last_error or "All models failed", "tokens_used": 0}`. -/
def chatFailure (le : Option String) : CompletionResult :=
  { success := false, content := none, model_used := none,
    tokens_used := 0, prompt_tokens := none, completion_tokens := none,
    error := some (pyOr le "All models failed"),
    needs_translation := none, translated := none, translation_model := none }

/-- The success dict built in the direct-Gemini fallback block of
`chat_completion` (no prompt/completion token keys; tokens_used 0). -/
def geminiSuccess (text : String) : CompletionResult :=
  { success := true, content := some text, model_used := some geminiDirect,
    tokens_used := 0, prompt_tokens := none, completion_tokens := none,
    error := none, needs_translation := none, translated := none,
    translation_model := none }

/-- The `for model in models:` loop of `chat_completion` (lines 343-388).
Returns the early-returned success (if any), the tracker after the
`_update_model_status` calls of the failed attempts, and the running
`last_error`. On HTTP 200 it returns at once; on 429 it records
`"Rate limit (429)"` and sets `last_error` to
`"Rate limit exceeded for <model>"`; on any other status it records
`"HTTP <status>: <msg>"` and sets `last_error` to the extracted message;
on timeout it records `"Timeout"` and sets
`last_error` to `"Timeout for <model>"`; on an exception it records and
sets `last_error` to the exception text. -/
def tryLoop (env : Env) : List String → Tracker → Option String →
    Option CompletionResult × Tracker × Option String
  | [], tr, le => (none, tr, le)
  | m :: rest, tr, le =>
    match env.call m with
    | .resp status content total prompt completion errMsg =>
      if status = 200 then
        (some (mkSuccess m content total prompt completion), tr, le)
      else if status = 429 then
        tryLoop env rest (update_model_status tr m false (some "Rate limit (429)"))
          (some ("Rate limit exceeded for " ++ m))
      else
        tryLoop env rest
          (update_model_status tr m false
            (some ("HTTP " ++ toString status ++ ": " ++ errMsg)))
          (some errMsg)
    | .timeout =>
        tryLoop env rest (update_model_status tr m false (some "Timeout"))
          (some ("Timeout for " ++ m))
    | .exn e =>
        tryLoop env rest (update_model_status tr m false (some e)) (some e)

/-- The secondary fallback block of `chat_completion` (lines 390-418):
if `_ensure_gemini_initialized()` (i.e. `GEMINI_API_KEY` is set), try the
direct Gemini call once; a non-empty `response.text` is a success
(recorded); an exception is recorded and appended to `last_error` as
`f"{last_error} | Gemini fallback error: {e}"`; otherwise fall through to
the terminal failure dict. -/
def geminiFallback (env : Env) (tr : Tracker) (le : Option String) :
    Except String CompletionResult × Tracker :=
  if env.gemini_key then
    match env.gemini with
    | .ok text =>
      if text = "" then (.ok (chatFailure le), tr)
      else (.ok (geminiSuccess text), update_model_status tr geminiDirect true none)
    | .noText => (.ok (chatFailure le), tr)
    | .exn e =>
      (.ok (chatFailure (some (pyStr le ++ " | Gemini fallback error: " ++ e))),
       update_model_status tr geminiDirect false (some e))
  else (.ok (chatFailure le), tr)

/-- The body of `chat_completion` after the key check: run the primary
loop, then the secondary fallback block if no primary succeeded. -/
def dispatchModels (env : Env) (tr : Tracker) (models : List String) :
    Except String CompletionResult × Tracker :=
  match tryLoop env models tr none with
  | (some r, tr1, _) => (.ok r, tr1)
  | (none, tr1, le) => geminiFallback env tr1 le

/-- `OpenRouterClient.chat_completion`. `.error` models the
`raise ValueError("OPENROUTER_API_KEY not set")` (thrown before any
provider is attempted, so the tracker is returned unchanged);
`models=None` defaults to `TEXT_MODELS`. -/
def chat_completion (env : Env) (tr : Tracker) (models : Option (List String)) :
    Except String CompletionResult × Tracker :=
  if env.api_key then
    dispatchModels env tr (models.getD TEXT_MODELS)
  else (.error "OPENROUTER_API_KEY not set", tr)

/-- `OpenRouterClient.chat_completion_with_vision`: delegates to
`chat_completion` (defaulting `models` to `TEXT_MODELS`) and then sets
`result["needs_translation"] = False`. -/
def chat_completion_with_vision (env : Env) (tr : Tracker)
    (models : Option (List String)) : Except String CompletionResult × Tracker :=
  match chat_completion env tr (some (models.getD TEXT_MODELS)) with
  | (.ok r, tr1) => (.ok { r with needs_translation := some false }, tr1)
  | (.error e, tr1) => (.error e, tr1)

/-- `OpenRouterClient.translate_to_japanese`: builds the translation
prompt (payload only — not observable here) and calls
`chat_completion(messages, TEXT_MODELS, ...)` with the full text-model
list. -/
def translate_to_japanese (env : Env) (tr : Tracker) ( _text : String) :
    Except String CompletionResult × Tracker :=
  chat_completion env tr (some TEXT_MODELS)

/-- The success dict of `analyze_video_url`'s 200 branch (includes
`"needs_translation": False`). -/
def videoSuccess (model content : String) (total prompt completion : Nat) :
    CompletionResult :=
  { mkSuccess model content total prompt completion with needs_translation := some false }

/-- The terminal failure dict of `analyze_video_url`:
`error` is `last_error or "All video models failed"` and
`needs_translation` is `False`. -/
def videoFailure (le : Option String) : CompletionResult :=
  { chatFailure le with error := some (pyOr le "All video models failed"),
                        needs_translation := some false }

/-- The `for model in models:` loop of `analyze_video_url` (lines
567-621): same classification as `tryLoop` but with no
`_update_model_status` calls at all, and the 200 branch's dict carries
`needs_translation = False`. -/
def videoLoop (env : Env) : List String → Option String →
    Option CompletionResult × Option String
  | [], le => (none, le)
  | m :: rest, le =>
    match env.vcall m with
    | .resp status content total prompt completion errMsg =>
      if status = 200 then
        (some (videoSuccess m content total prompt completion), le)
      else if status = 429 then
        videoLoop env rest (some ("Rate limit exceeded for " ++ m))
      else
        videoLoop env rest (some errMsg)
    | .timeout => videoLoop env rest (some ("Timeout for " ++ m))
    | .exn e => videoLoop env rest (some e)

/-- `OpenRouterClient.analyze_video_url`: key check (raises), default
`models = VIDEO_CAPABLE_MODELS`, loop, terminal failure dict. No tracker
interaction and no secondary fallback exist in this function. -/
def analyze_video_url (env : Env) (models : Option (List String)) :
    Except String CompletionResult :=
  if env.api_key then
    match videoLoop env (models.getD VIDEO_CAPABLE_MODELS) none with
    | (some r, _) => .ok r
    | (none, le) => .ok (videoFailure le)
  else .error "OPENROUTER_API_KEY not set"

/-- `OpenRouterClient.extract_recipe_from_video_url`: calls
`analyze_video_url`; when the result is a success *and*
`result.get("needs_translation", False)` holds, post-processes through
`translate_to_japanese` (setting `content`/`translated`/
`translation_model` on success of the translation, `translated = False`
on its failure); otherwise returns the analysis result unchanged. -/
def extract_recipe_from_video_url (env : Env) (tr : Tracker)
    (models : Option (List String)) : Except String CompletionResult × Tracker :=
  match analyze_video_url env models with
  | .error e => (.error e, tr)
  | .ok r =>
    if r.success && (r.needs_translation.getD false) then
      match translate_to_japanese env tr (r.content.getD "") with
      | (.ok t, tr1) =>
        if t.success then
          (.ok { r with content := t.content, translated := some true,
                        translation_model := t.model_used }, tr1)
        else (.ok { r with translated := some false }, tr1)
      | (.error e, tr1) => (.error e, tr1)
    else (.ok r, tr)

/-- An OpenRouter call outcome counts as a success exactly when the
response came back with HTTP status 200. -/
def isSuccess : HttpOutcome → Bool
  | .resp status _ _ _ _ _ => status = 200
  | _ => false

/-- When every model in `pre` fails, the loop over `pre ++ rest`
continues into `rest` with the tracker and `last_error` accumulated over
`pre`. -/
lemma tryLoop_skip_failures (env : Env) (pre rest : List String)
    (tr : Tracker) (le : Option String)
    (h : ∀ p ∈ pre, isSuccess (env.call p) = false) :
    tryLoop env (pre ++ rest) tr le =
      tryLoop env rest (tryLoop env pre tr le).2.1 (tryLoop env pre tr le).2.2 := by
  induction pre generalizing tr le with
  | nil => simp [tryLoop]
  | cons p ps ih =>
    have hp : isSuccess (env.call p) = false := h p (by simp)
    have hps : ∀ q ∈ ps, isSuccess (env.call q) = false :=
      fun q hq => h q (by simp [hq])
    cases hc : env.call p with
    | resp status content total prompt completion errMsg =>
      have hs : ¬ status = 200 := by
        intro h200
        rw [hc] at hp
        simp [isSuccess, h200] at hp
      by_cases h429 : status = 429 <;>
        simp [tryLoop, hc, hs, h429, ih _ _ hps]
    | timeout => simp [tryLoop, hc, ih _ _ hps]
    | exn e => simp [tryLoop, hc, ih _ _ hps]

/-- Unfolding `dispatchModels` when the primary loop returned a success. -/
lemma dispatchModels_of_some (env : Env) (tr tr1 : Tracker)
    (models : List String) (r : CompletionResult) (le : Option String)
    (h : tryLoop env models tr none = (some r, tr1, le)) :
    dispatchModels env tr models = (.ok r, tr1) := by
  simp [dispatchModels, h]

/-- Unfolding `dispatchModels` when the primary loop was exhausted. -/
lemma dispatchModels_of_none (env : Env) (tr tr1 : Tracker)
    (models : List String) (le : Option String)
    (h : tryLoop env models tr none = (none, tr1, le)) :
    dispatchModels env tr models = geminiFallback env tr1 le := by
  simp [dispatchModels, h]

/-- C1. With the API key set, for any model list split as
`pre ++ m :: post` where every model of `pre` fails (any non-200 outcome)
and `m` answers HTTP 200, `chat_completion` returns exactly `m`'s success
dict — `model_used = m`, `content` and token counts taken from `m`'s
response — and the returned state depends only on the attempts up to and
including `m`: the right-hand side mentions neither `post` nor the
secondary fallback, so no provider after the first success is attempted. -/
theorem C1_first_success_wins (env : Env) (tr : Tracker)
    (pre post : List String) (m c : String) (t pt ct : Nat) (em : String)
    (hkey : env.api_key = true)
    (hpre : ∀ p ∈ pre, isSuccess (env.call p) = false)
    (hm : env.call m = .resp 200 c t pt ct em) :
    chat_completion env tr (some (pre ++ m :: post)) =
      (.ok (mkSuccess m c t pt ct), (tryLoop env pre tr none).2.1) := by
  have hloop : tryLoop env (pre ++ m :: post) tr none =
      (some (mkSuccess m c t pt ct), (tryLoop env pre tr none).2.1,
       (tryLoop env pre tr none).2.2) := by
    rw [tryLoop_skip_failures env pre (m :: post) tr none hpre]
    simp [tryLoop, hm]
  simp [chat_completion, hkey, dispatchModels_of_some env tr _ _ _ _ hloop]

/-- Witness for C1 at a concrete environment: models `["A", "B", "C"]`
with `A` rate-limited and `B` succeeding with content `"X"`. -/
theorem C1_witness :
    chat_completion
      { api_key := true, gemini_key := false,
        call := fun m => if m = "A" then .resp 429 "" 0 0 0 ""
                         else .resp 200 "X" 10 3 7 "",
        vcall := fun _ => .timeout, gemini := .noText }
      initTracker (some (["A"] ++ "B" :: ["C"])) =
      (.ok (mkSuccess "B" "X" 10 3 7),
       (tryLoop
         { api_key := true, gemini_key := false,
           call := fun m => if m = "A" then .resp 429 "" 0 0 0 ""
                            else .resp 200 "X" 10 3 7 "",
           vcall := fun _ => .timeout, gemini := .noText }
         ["A"] initTracker none).2.1) :=
  C1_first_success_wins _ initTracker ["A"] ["C"] "B" "X" 10 3 7 ""
    rfl (by intro p hp; simp at hp; subst hp; simp [isSuccess]) (by simp)

/-- C2. With the API key set, if the whole primary list is exhausted
without a success and the Gemini key is configured and the direct Gemini
call returns a non-empty text, `chat_completion` returns a success whose
`model_used` is exactly `"gemini-1.5-flash (direct)"`, and the only
state change past the primary loop is the single success record for that
identifier — the secondary is attempted once with no fallback beyond it. -/
theorem C2_secondary_fallback (env : Env) (tr tr1 : Tracker)
    (models : List String) (le : Option String) (text : String)
    (hkey : env.api_key = true)
    (hloop : tryLoop env models tr none = (none, tr1, le))
    (hgk : env.gemini_key = true)
    (hg : env.gemini = .ok text) (hne : text ≠ "") :
    chat_completion env tr (some models) =
      (.ok (geminiSuccess text), update_model_status tr1 geminiDirect true none) := by
  simp [chat_completion, hkey, dispatchModels_of_none env tr tr1 models le hloop,
        geminiFallback, hgk, hg, hne]

/-- Witness for C2: a single primary model that times out, then the
direct Gemini call succeeds with text `"Y"`. -/
theorem C2_witness :
    chat_completion
      { api_key := true, gemini_key := true, call := fun _ => .timeout,
        vcall := fun _ => .timeout, gemini := .ok "Y" }
      initTracker (some ["A"]) =
      (.ok (geminiSuccess "Y"),
       update_model_status
         (update_model_status initTracker "A" false (some "Timeout"))
         geminiDirect true none) :=
  C2_secondary_fallback _ initTracker
    (update_model_status initTracker "A" false (some "Timeout"))
    ["A"] (some "Timeout for A") "Y" rfl (by simp [tryLoop]) rfl rfl (by simp)

/-- Concrete environment for C3: one primary model `"A"` that raises
`"boom"`, a configured secondary whose direct call raises `"gfail"`. -/
def envC3 : Env :=
  { api_key := true, gemini_key := true,
    call := fun _ => .exn "boom", vcall := fun _ => .timeout,
    gemini := .exn "gfail" }

/-- C3 counterexample. When the last attempted provider is the secondary
(whose own recorded error is `"gfail"`), the returned `error` field is
`"boom | Gemini fallback error: gfail"` — the last primary error
concatenated with the secondary's — so it is a combination of errors and
equals neither the secondary's message nor the last primary one alone,
contradicting the claim that it carries exactly the last attempted
provider's error message. -/
theorem C3_counterexample :
    (chat_completion envC3 initTracker (some ["A"])).1 =
      .ok (chatFailure (some "boom | Gemini fallback error: gfail"))
    ∧ ((chat_completion envC3 initTracker (some ["A"])).2 geminiDirect).last_error =
        some "gfail"
    ∧ (chatFailure (some "boom | Gemini fallback error: gfail")).error ≠ some "gfail"
    ∧ (chatFailure (some "boom | Gemini fallback error: gfail")).error ≠ some "boom" := by
  refine ⟨?_, ?_, by decide, by decide⟩ <;>
    simp [chat_completion, envC3, dispatchModels, tryLoop, geminiFallback,
          update_model_status, chatFailure, pyOr, pyStr]

/-- C3 amended: if every provider fails — all primaries (leaving last
primary error `le`) and the configured secondary (raising `e`) — the
result is a failure whose `error` is the last primary error concatenated
with `" | Gemini fallback error: "` and the secondary's message (and the
secondary's tracker entry records `e` alone). -/
theorem C3_amended_last_error_combined (env : Env) (tr tr1 : Tracker)
    (models : List String) (le e : String)
    (hkey : env.api_key = true)
    (hloop : tryLoop env models tr none = (none, tr1, some le))
    (hgk : env.gemini_key = true)
    (hg : env.gemini = .exn e) :
    chat_completion env tr (some models) =
      (.ok (chatFailure (some (le ++ " | Gemini fallback error: " ++ e))),
       update_model_status tr1 geminiDirect false (some e)) := by
  simp [chat_completion, hkey, dispatchModels_of_none env tr tr1 models (some le) hloop,
        geminiFallback, hgk, hg, pyStr]

/-- Witness for the amended C3 at the concrete `envC3`. -/
theorem C3_witness :
    chat_completion envC3 initTracker (some ["A"]) =
      (.ok (chatFailure (some ("boom" ++ " | Gemini fallback error: " ++ "gfail"))),
       update_model_status
         (update_model_status initTracker "A" false (some "boom"))
         geminiDirect false (some "gfail")) :=
  C3_amended_last_error_combined envC3 initTracker
    (update_model_status initTracker "A" false (some "boom"))
    ["A"] "boom" "gfail" rfl (by simp [tryLoop, envC3]) rfl rfl

/-- Concrete environment for C4 and the spec's scenario: `A` answers 429
and `B` answers 200 with content `"X"` and 10 total tokens. -/
def envC4 : Env :=
  { api_key := true, gemini_key := false,
    call := fun m => if m = "A" then .resp 429 "" 0 0 0 "" else .resp 200 "X" 10 3 7 "",
    vcall := fun _ => .timeout, gemini := .noText }

/-- C4 counterexample. In the spec's own scenario `[A (429), B (200)]`
the dispatch does return `B`'s success and `A` does gain one error
record, but `B`'s tracker entry is completely untouched (`success_count`
stays 0, status stays `"unused"`): the HTTP-200 branch of
`chat_completion` returns without calling `_update_model_status`, so a
successful primary attempt is never recorded. -/
theorem C4_counterexample :
    (chat_completion envC4 initTracker (some ["A", "B"])).1 =
      .ok (mkSuccess "B" "X" 10 3 7)
    ∧ ((chat_completion envC4 initTracker (some ["A", "B"])).2 "B") = initStats
    ∧ ((chat_completion envC4 initTracker (some ["A", "B"])).2 "B").success_count = 0
    ∧ ((chat_completion envC4 initTracker (some ["A", "B"])).2 "A").error_count = 1 := by
  refine ⟨?_, ?_, ?_, ?_⟩ <;>
    simp [chat_completion, envC4, dispatchModels, tryLoop,
          update_model_status, initTracker, initStats]

/-- C4 amended: failed attempts are recorded (here `A`'s 429 adds one
error record with message `"Rate limit (429)"`), but the succeeding
provider `B` is *not* recorded — the returned tracker differs from the
input only at `A`, so `B`'s entry is exactly what it was before. -/
theorem C4_amended_only_failures_recorded (env : Env) (tr : Tracker)
    (A B cA c : String) (tA pA ctA t pt ct : Nat) (emA em : String)
    (hkey : env.api_key = true)
    (hA : env.call A = .resp 429 cA tA pA ctA emA)
    (hB : env.call B = .resp 200 c t pt ct em)
    (hne : A ≠ B) :
    chat_completion env tr (some [A, B]) =
      (.ok (mkSuccess B c t pt ct),
       update_model_status tr A false (some "Rate limit (429)"))
    ∧ (update_model_status tr A false (some "Rate limit (429)")) B = tr B
    ∧ ((update_model_status tr A false (some "Rate limit (429)")) A).error_count =
        (tr A).error_count + 1
    ∧ ((update_model_status tr A false (some "Rate limit (429)")) A).status =
        "error" := by
  refine ⟨?_, ?_, ?_, ?_⟩
  · simp [chat_completion, hkey, dispatchModels, tryLoop, hA, hB]
  · simp [update_model_status, Ne.symm hne]
  · simp [update_model_status]
  · simp [update_model_status]

/-- Witness for the amended C4 at `envC4`. -/
theorem C4_witness :
    (chat_completion envC4 initTracker (some ["A", "B"]) =
      (.ok (mkSuccess "B" "X" 10 3 7),
       update_model_status initTracker "A" false (some "Rate limit (429)")))
    ∧ (update_model_status initTracker "A" false (some "Rate limit (429)")) "B" =
        initTracker "B" :=
  ⟨(C4_amended_only_failures_recorded envC4 initTracker "A" "B" "" "X" 0 0 0 10 3 7 "" ""
      rfl (by simp [envC4]) (by simp [envC4]) (by decide)).1,
   (C4_amended_only_failures_recorded envC4 initTracker "A" "B" "" "X" 0 0 0 10 3 7 "" ""
      rfl (by simp [envC4]) (by simp [envC4]) (by decide)).2.1⟩

/-- C5. The status reported by `get_model_status` (in-memory branch) is
derived from the records: `"unused"` with zero counts when nothing was
recorded, and after any record it equals that most recent record's
outcome — in particular `"success"` after one success, and `"error"`
after a success followed by a later failure. -/
theorem C5_status_most_recent_record (m : String) (tr : Tracker) (s : Bool)
    (e : Option String) :
    (get_model_status initTracker m).status = "unused"
    ∧ (get_model_status initTracker m).success_count = 0
    ∧ (get_model_status initTracker m).error_count = 0
    ∧ (get_model_status (update_model_status tr m s e) m).status =
        (if s then "success" else "error")
    ∧ (get_model_status
        (update_model_status (update_model_status tr m true none) m false e) m).status =
        "error" := by
  refine ⟨rfl, rfl, rfl, ?_, ?_⟩ <;>
    cases s <;> simp [get_model_status, update_model_status]

/-- Concrete environment for C6: the first text model
(`google/gemma-3-27b-it:free`) is rate-limited, every other model answers
HTTP 200 with content `"X"`. -/
def envC6 : Env :=
  { api_key := true, gemini_key := false,
    call := fun m => if m = "google/gemma-3-27b-it:free"
                     then .resp 429 "" 0 0 0 ""
                     else .resp 200 "X" 10 3 7 "",
    vcall := fun _ => .timeout, gemini := .noText }

/-- C6 counterexample. `translate_to_japanese` does not use a
single-element allowlist: it passes the full `TEXT_MODELS` list (five
models), and when the first model is rate-limited the dispatch falls
through to the second model, which is attempted and used
(`model_used = "google/gemma-3-12b-it:free"`) — so more than one provider
can be attempted for a translation request. -/
theorem C6_counterexample :
    TEXT_MODELS.length ≠ 1
    ∧ (translate_to_japanese envC6 initTracker "hello").1 =
        .ok (mkSuccess "google/gemma-3-12b-it:free" "X" 10 3 7)
    ∧ ((translate_to_japanese envC6 initTracker "hello").2
        "google/gemma-3-27b-it:free").error_count = 1 := by
  refine ⟨by decide, ?_, ?_⟩ <;>
    simp [translate_to_japanese, chat_completion, envC6, dispatchModels,
          TEXT_MODELS, tryLoop, update_model_status, initTracker, initStats]

/-- C6 amended: `translate_to_japanese` dispatches over the full
`TEXT_MODELS` list (with `google/gemma-3-27b-it:free` first), so when the
first model is rate-limited and the second answers HTTP 200, the
translation is served by the second model and the first gains an error
record — fallback across providers does occur for translation. -/
theorem C6_amended_translation_uses_full_list (env : Env) (tr : Tracker)
    (text cA c : String) (tA pA ctA t pt ct : Nat) (emA em : String)
    (hkey : env.api_key = true)
    (h1 : env.call "google/gemma-3-27b-it:free" = .resp 429 cA tA pA ctA emA)
    (h2 : env.call "google/gemma-3-12b-it:free" = .resp 200 c t pt ct em) :
    translate_to_japanese env tr text =
      (.ok (mkSuccess "google/gemma-3-12b-it:free" c t pt ct),
       update_model_status tr "google/gemma-3-27b-it:free" false
         (some "Rate limit (429)")) := by
  simp [translate_to_japanese, chat_completion, hkey, dispatchModels,
        TEXT_MODELS, tryLoop, h1, h2]

/-- Witness for the amended C6 at `envC6`. -/
theorem C6_witness :
    translate_to_japanese envC6 initTracker "hello" =
      (.ok (mkSuccess "google/gemma-3-12b-it:free" "X" 10 3 7),
       update_model_status initTracker "google/gemma-3-27b-it:free" false
         (some "Rate limit (429)")) :=
  C6_amended_translation_uses_full_list envC6 initTracker "hello" "" "X" 0 0 0 10 3 7 "" ""
    rfl (by simp [envC6]) (by simp [envC6])

/-- Whether an `Except`-valued call returned normally (no raise). -/
def exceptOk : Except String CompletionResult → Bool
  | .ok _ => true
  | .error _ => false

/-- The secondary-fallback block never raises: every branch builds a
result dict. -/
lemma geminiFallback_ok (env : Env) (tr : Tracker) (le : Option String) :
    exceptOk (geminiFallback env tr le).1 = true := by
  unfold geminiFallback
  by_cases hk : env.gemini_key
  · cases hg : env.gemini with
    | ok text => by_cases ht : text = "" <;> simp [hk, ht, exceptOk]
    | noText => simp [hk, exceptOk]
    | exn e => simp [hk, exceptOk]
  · simp [hk, exceptOk]

/-- The post-key-check body of `chat_completion` never raises. -/
lemma dispatchModels_ok (env : Env) (tr : Tracker) (models : List String) :
    exceptOk (dispatchModels env tr models).1 = true := by
  unfold dispatchModels
  rcases h : tryLoop env models tr none with ⟨res, tr1, le⟩
  cases res with
  | some r => rfl
  | none => exact geminiFallback_ok env tr1 le

/-- C7. Per-provider errors never propagate out of `chat_completion`:
whenever the API key is set the call returns a result dict (never
raises), whatever the per-model outcomes are; and when the key is
missing it raises `ValueError("OPENROUTER_API_KEY not set")` before any
provider is attempted, leaving the tracker unchanged. -/
theorem C7_error_propagation (env : Env) (tr : Tracker)
    (mo : Option (List String)) :
    (env.api_key = true → exceptOk (chat_completion env tr mo).1 = true)
    ∧ (env.api_key = false →
        chat_completion env tr mo = (.error "OPENROUTER_API_KEY not set", tr)) := by
  constructor
  · intro h
    simp [chat_completion, h, dispatchModels_ok]
  · intro h
    simp [chat_completion, h]

/-- Witness for C7: with the key set (and every provider failing) the
call still returns a dict; without the key it raises at once and the
tracker is untouched. -/
theorem C7_witness :
    exceptOk (chat_completion
      { api_key := true, gemini_key := false, call := fun _ => .timeout,
        vcall := fun _ => .timeout, gemini := .noText }
      initTracker none).1 = true
    ∧ chat_completion
        { api_key := false, gemini_key := false, call := fun _ => .timeout,
          vcall := fun _ => .timeout, gemini := .noText }
        initTracker none = (.error "OPENROUTER_API_KEY not set", initTracker) :=
  ⟨(C7_error_propagation
      { api_key := true, gemini_key := false, call := fun _ => .timeout,
        vcall := fun _ => .timeout, gemini := .noText } initTracker none).1 rfl,
   (C7_error_propagation
      { api_key := false, gemini_key := false, call := fun _ => .timeout,
        vcall := fun _ => .timeout, gemini := .noText } initTracker none).2 rfl⟩

/-- Concrete environment for C8: the first model `"A"` always answers
HTTP 200 with content `"X"`. -/
def envC8 : Env :=
  { api_key := true, gemini_key := false,
    call := fun _ => .resp 200 "X" 10 3 7 "",
    vcall := fun _ => .timeout, gemini := .noText }

/-- C8 counterexample. Calling `chat_completion` twice against a list
whose first provider always succeeds does yield two results both
attributing success to that provider, but the tracker's `success_count`
for it ends at 0, not 2: the HTTP-200 branch records nothing, so the
claimed increment of exactly 2 does not happen. -/
theorem C8_counterexample :
    (chat_completion envC8 initTracker (some ["A", "B"])).1 =
      .ok (mkSuccess "A" "X" 10 3 7)
    ∧ (chat_completion envC8
        ((chat_completion envC8 initTracker (some ["A", "B"])).2)
        (some ["A", "B"])).1 = .ok (mkSuccess "A" "X" 10 3 7)
    ∧ ((chat_completion envC8
        ((chat_completion envC8 initTracker (some ["A", "B"])).2)
        (some ["A", "B"])).2 "A").success_count = 0
    ∧ ((chat_completion envC8
        ((chat_completion envC8 initTracker (some ["A", "B"])).2)
        (some ["A", "B"])).2 "A").success_count ≠ 2 := by
  refine ⟨?_, ?_, ?_, ?_⟩ <;>
    simp [chat_completion, envC8, dispatchModels, tryLoop, initTracker, initStats]

/-- C8 amended: two identical calls whose first provider answers HTTP 200
both return that provider's success dict, and the tracker is returned
*unchanged* by each call — so every provider's `success_count` is
incremented by 0, not 2 (primary successes are never recorded). -/
theorem C8_amended_idempotent_no_records (env : Env) (tr : Tracker)
    (m c : String) (rest : List String) (t pt ct : Nat) (em : String)
    (hkey : env.api_key = true)
    (hm : env.call m = .resp 200 c t pt ct em) :
    chat_completion env tr (some (m :: rest)) = (.ok (mkSuccess m c t pt ct), tr)
    ∧ chat_completion env
        ((chat_completion env tr (some (m :: rest))).2)
        (some (m :: rest)) = (.ok (mkSuccess m c t pt ct), tr) := by
  have h1 : chat_completion env tr (some (m :: rest)) =
      (.ok (mkSuccess m c t pt ct), tr) := by
    simp [chat_completion, hkey, dispatchModels, tryLoop, hm]
  exact ⟨h1, by rw [h1]; exact h1⟩

/-- Witness for the amended C8 at `envC8`. -/
theorem C8_witness :
    chat_completion envC8 initTracker (some (["A", "B"])) =
      (.ok (mkSuccess "A" "X" 10 3 7), initTracker) :=
  (C8_amended_idempotent_no_records envC8 initTracker "A" "X" ["B"] 10 3 7 ""
    rfl (by simp [envC8])).1

/-- C9. With the API key set, `analyze_video_url` called with its default
model list (`models=None`, i.e. `VIDEO_CAPABLE_MODELS`, which is empty)
returns the terminal failure dict with
`error = "All video models failed"` for *every* environment — the result
does not depend on any per-model outcome or on the Gemini configuration,
since the loop body never runs and the video path has no secondary
fallback branch. -/
theorem C9_default_video_always_fails (env : Env)
    (hkey : env.api_key = true) :
    analyze_video_url env none = .ok (videoFailure none)
    ∧ (videoFailure none).success = false
    ∧ (videoFailure none).error = some "All video models failed"
    ∧ (videoFailure none).model_used = none
    ∧ VIDEO_CAPABLE_MODELS = [] := by
  refine ⟨?_, rfl, rfl, rfl, rfl⟩
  simp [analyze_video_url, hkey, VIDEO_CAPABLE_MODELS, videoLoop]

/-- Witness for C9 at a concrete environment in which every model call
would succeed — the video path still fails because the list is empty. -/
theorem C9_witness :
    analyze_video_url
      { api_key := true, gemini_key := true,
        call := fun _ => .resp 200 "X" 10 3 7 "",
        vcall := fun _ => .resp 200 "X" 10 3 7 "", gemini := .ok "Y" }
      none = .ok (videoFailure none) :=
  (C9_default_video_always_fails
    { api_key := true, gemini_key := true,
      call := fun _ => .resp 200 "X" 10 3 7 "",
      vcall := fun _ => .resp 200 "X" 10 3 7 "", gemini := .ok "Y" } rfl).1

/-- Any success the video loop produces carries
`needs_translation = False`. -/
lemma videoLoop_needs_translation_false (env : Env) :
    ∀ (models : List String) (le : Option String) (r : CompletionResult),
      (videoLoop env models le).1 = some r → r.needs_translation = some false := by
  intro models
  induction models with
  | nil => intro le r h; simp [videoLoop] at h
  | cons m rest ih =>
    intro le r h
    cases hc : env.vcall m with
    | resp status content total prompt completion errMsg =>
      by_cases h200 : status = 200
      · rw [videoLoop, hc] at h
        simp [h200] at h
        rw [← h]
        rfl
      · by_cases h429 : status = 429 <;>
          { rw [videoLoop, hc] at h
            simp [h200, h429] at h
            exact ih _ _ h }
    | timeout =>
      rw [videoLoop, hc] at h
      exact ih _ _ h
    | exn e =>
      rw [videoLoop, hc] at h
      exact ih _ _ h

/-- Every dict returned by `analyze_video_url` carries
`needs_translation = False` (both the per-model success dict and the
terminal failure dict set it explicitly). -/
lemma analyze_video_url_needs_translation_false (env : Env)
    (mo : Option (List String)) (r : CompletionResult)
    (h : analyze_video_url env mo = .ok r) :
    r.needs_translation = some false := by
  unfold analyze_video_url at h
  by_cases hkey : env.api_key
  · rw [if_pos hkey] at h
    rcases hl : videoLoop env (mo.getD VIDEO_CAPABLE_MODELS) none with ⟨res, le⟩
    rw [hl] at h
    cases res with
    | some s =>
      simp at h
      rw [← h]
      exact videoLoop_needs_translation_false env _ _ s (by rw [hl])
    | none =>
      simp at h
      rw [← h]
      rfl
  · rw [if_neg hkey] at h
    exact absurd h (by simp)

/-- C10. `needs_translation` is `False` in every result of
`chat_completion_with_vision` and of `analyze_video_url`, and therefore
the translation branch of `extract_recipe_from_video_url` is dead code:
for every environment, tracker and model list the function returns the
video-analysis result unchanged (no `translated` key, no call to
`translate_to_japanese`, tracker untouched). -/
theorem C10_translation_branch_unreachable (env : Env) (tr : Tracker)
    (mo : Option (List String)) :
    extract_recipe_from_video_url env tr mo = (analyze_video_url env mo, tr)
    ∧ (∀ r, analyze_video_url env mo = .ok r → r.needs_translation = some false)
    ∧ (∀ r, (chat_completion_with_vision env tr mo).1 = .ok r →
        r.needs_translation = some false) := by
  refine ⟨?_, fun r h => analyze_video_url_needs_translation_false env mo r h, ?_⟩
  · unfold extract_recipe_from_video_url
    cases ha : analyze_video_url env mo with
    | error e => rfl
    | ok r =>
      have hnt : r.needs_translation = some false :=
        analyze_video_url_needs_translation_false env mo r ha
      simp [hnt]
  · intro r h
    unfold chat_completion_with_vision at h
    rcases hc : chat_completion env tr (some (mo.getD TEXT_MODELS)) with ⟨res, tr1⟩
    rw [hc] at h
    cases res with
    | ok s =>
      simp at h
      rw [← h]
    | error e => exact absurd h (by simp)

/-- Witness for C10 at a concrete environment: the extraction result is
exactly the video-analysis result, whose `needs_translation` is `False`. -/
theorem C10_witness :
    extract_recipe_from_video_url
      { api_key := true, gemini_key := true,
        call := fun _ => .resp 200 "X" 10 3 7 "",
        vcall := fun _ => .resp 200 "X" 10 3 7 "", gemini := .ok "Y" }
      initTracker none =
      (analyze_video_url
        { api_key := true, gemini_key := true,
          call := fun _ => .resp 200 "X" 10 3 7 "",
          vcall := fun _ => .resp 200 "X" 10 3 7 "", gemini := .ok "Y" } none,
       initTracker)
    ∧ (videoFailure none).needs_translation = some false :=
  ⟨(C10_translation_branch_unreachable
      { api_key := true, gemini_key := true,
        call := fun _ => .resp 200 "X" 10 3 7 "",
        vcall := fun _ => .resp 200 "X" 10 3 7 "", gemini := .ok "Y" }
      initTracker none).1,
   (C10_translation_branch_unreachable
      { api_key := true, gemini_key := true,
        call := fun _ => .resp 200 "X" 10 3 7 "",
        vcall := fun _ => .resp 200 "X" 10 3 7 "", gemini := .ok "Y" }
      initTracker none).2.1 (videoFailure none) (by rfl)⟩
